import Mathlib

/-!
Shallow embedding of the behavioral trust-scoring client of this repository:
the `BehaviorTracker` class (src/utils/behaviorTracking.js), the checkout
Decision Gate (`runAIAnalysis` / `handleSubmit` in the Checkout component) and
the training-data ingestion endpoint (src/app/api/save-training-data/route.js).

Modelling conventions:
- JavaScript numbers are modelled as exact rationals (ℚ).  The only
  floating-point phenomenon the verified code paths depend on is `0 / 0 = NaN`,
  which we capture with the two-constructor type `JsNum`.  `Math.sqrt` and
  `Math.atan2` are taken as parameters (`msqrt`, `matan2`) of the mouse-entropy
  computation: no verified property depends on their numeric values, only on
  which of their applications occur.
- `Date.now()` is passed explicitly as a `now : ℚ` argument to every method
  that reads the clock.
- A JavaScript method that can return either the number `0` or an object
  (`getKTPKeystrokeDynamics`, `getMouseMovementEntropy`) is modelled with
  `Option`: `none` is the scalar `0` return, on which any property access
  yields `undefined` (falsy, hence replaced by the `|| 0` defaults downstream).
- JavaScript truthiness: a number is falsy iff it is `0` (or `NaN`); `null`
  and `undefined` are falsy.  `Option ℚ` values are tested with `jsTruthyOpt`.
-/

/-- A JavaScript number that may be `NaN`.  Only the `0 / 0` route to `NaN`
occurs in the embedded code, so no infinity constructor is needed (every other
division in the source has a provably nonzero denominator). -/
inductive JsNum where
  | num : ℚ → JsNum
  | nan : JsNum
deriving DecidableEq

/-- JavaScript division producing `NaN` on a zero denominator.  In the embedded
code the numerator is `0` whenever the denominator is `0` (the `n = 2` case of
the mouse-entropy average), so identifying that case with `NaN` matches IEEE
`0 / 0 = NaN` on every reachable input. -/
def jsDiv (a b : ℚ) : JsNum :=
  if b = 0 then JsNum.nan else JsNum.num (a / b)

/-- The JavaScript idiom `x || 0` applied to a possibly-`NaN` number: `NaN` is
falsy and becomes `0`; the number `0` is falsy and becomes `0` (which is itself);
any other number is kept. -/
def jsOrZero : JsNum → ℚ
  | JsNum.num q => q
  | JsNum.nan => 0

/-- JavaScript truthiness of a nullable number (`null`/`undefined` and `0` are
falsy). -/
def jsTruthyOpt : Option ℚ → Bool
  | none => false
  | some q => decide (q ≠ 0)

/-- One element of `this.ktpKeystrokeData`, as pushed by `trackKTPKeystroke`. -/
structure KTPEvent where
  fieldId : String
  eventType : String
  timestamp : ℚ
  value : String
deriving DecidableEq

/-- One element of `this.mousePositions`, as pushed by `trackMouseMovement`. -/
structure MousePos where
  x : ℚ
  y : ℚ
  timestamp : ℚ
deriving DecidableEq

/-- The object returned by `getKTPKeystrokeDynamics` in its non-degenerate
branch. -/
structure KTPDynamics where
  averageInterval : ℚ
  variance : ℚ
  totalTime : ℚ
  pasteDetected : Bool
deriving DecidableEq

/-- The object returned by `getMouseMovementEntropy` in its non-degenerate
branch.  `averageAngleChange` (and hence `smoothness`, which aliases it) is a
`JsNum` because it is `totalAngleChange / (length - 2)`, which is `0 / 0 = NaN`
when exactly two positions are retained. -/
structure MouseEntropy where
  totalDistance : ℚ
  averageAngleChange : JsNum
  smoothness : JsNum
deriving DecidableEq

/-- The state of one `BehaviorTracker` instance (the constructor's fields).
`fieldEditCounts` is the JS object modelled as an association list with unique
keys; `lastMousePosition` is initialised but never updated or read by the
class, and is carried only for state fidelity. -/
structure BehaviorTracker where
  sessionStartTime : ℚ
  ktpKeystrokeData : List KTPEvent
  fieldEditCounts : List (String × ℕ)
  mousePositions : List MousePos
  seatHoverStartTime : Option ℚ
  seatHesitationTime : ℚ
  totalClicks : ℕ
  lastMousePosition : ℚ × ℚ
deriving DecidableEq

/-- Constructor: `new BehaviorTracker()` at clock value `now` (the constructor stores
`Date.now()` as the session start). -/
def mkTracker (now : ℚ) : BehaviorTracker where
  sessionStartTime := now
  ktpKeystrokeData := []
  fieldEditCounts := []
  mousePositions := []
  seatHoverStartTime := none
  seatHesitationTime := 0
  totalClicks := 0
  lastMousePosition := (0, 0)

/-- Method `getSessionTime()`: wall-clock elapsed since construction. -/
def getSessionTime (s : BehaviorTracker) (now : ℚ) : ℚ :=
  now - s.sessionStartTime

/-- Method `trackKTPKeystroke(fieldId, eventType, value)`: appends one keystroke-class
event stamped with the current clock. -/
def trackKTPKeystroke (s : BehaviorTracker) (fieldId eventType value : String)
    (now : ℚ) : BehaviorTracker :=
  { s with ktpKeystrokeData := s.ktpKeystrokeData ++
      [{ fieldId := fieldId, eventType := eventType, timestamp := now, value := value }] }

/-- The list `intervals` built by the `for` loop of `getKTPKeystrokeDynamics`:
`intervals[i-1] = t[i] - t[i-1]`. -/
def consecutiveDiffs (ts : List ℚ) : List ℚ :=
  List.zipWith (fun a b => b - a) ts ts.tail

/-- Method `getKTPKeystrokeDynamics()`.  The two `return 0` branches (fewer than two
recorded events, or fewer than two `keydown` events) are `none`; otherwise the
average inter-keystroke interval, its population variance (division by the
number of intervals), the first-to-last keydown span, and whether any `paste`
event occurs anywhere in `ktpKeystrokeData`.  The guard makes `keydownEvents`
hold at least two elements, so the `getD 0` defaults on head/last are
unreachable. -/
def getKTPKeystrokeDynamics (s : BehaviorTracker) : Option KTPDynamics :=
  if s.ktpKeystrokeData.length < 2 then none
  else
    let keydownEvents := s.ktpKeystrokeData.filter (fun e => e.eventType = "keydown")
    if keydownEvents.length < 2 then none
    else
      let ts := keydownEvents.map (fun e => e.timestamp)
      let intervals := consecutiveDiffs ts
      let avgInterval := intervals.sum / (intervals.length : ℚ)
      let variance := (intervals.map (fun v => (v - avgInterval) ^ 2)).sum / (intervals.length : ℚ)
      some { averageInterval := avgInterval
             variance := variance
             totalTime := (ts.getLast?.getD 0) - (ts.head?.getD 0)
             pasteDetected := s.ktpKeystrokeData.any (fun e => e.eventType = "paste") }

/-- Method `trackFieldEdit(fieldId)`: create-on-first-use then increment.  (The JS
falsy test `!this.fieldEditCounts[fieldId]` also matches a stored `0`, but a
stored count is never `0`, so presence in the association list is the faithful
test.) -/
def trackFieldEdit (s : BehaviorTracker) (fieldId : String) : BehaviorTracker :=
  { s with fieldEditCounts :=
      if s.fieldEditCounts.any (fun p => p.1 = fieldId) then
        s.fieldEditCounts.map (fun p => if p.1 = fieldId then (p.1, p.2 + 1) else p)
      else
        s.fieldEditCounts ++ [(fieldId, 1)] }

/-- Method `getTotalFieldEdits()`: sum of all per-field counters. -/
def getTotalFieldEdits (s : BehaviorTracker) : ℕ :=
  (s.fieldEditCounts.map (fun p => p.2)).sum

/-- Method `trackMouseMovement(x, y)`: push the sample, then `shift()` (drop the
oldest) when more than 100 are held. -/
def trackMouseMovement (s : BehaviorTracker) (x y now : ℚ) : BehaviorTracker :=
  let pushed := s.mousePositions ++ [{ x := x, y := y, timestamp := now }]
  { s with mousePositions := if 100 < pushed.length then pushed.tail else pushed }

/-- Constant `Math.PI` as the exact rational value of the IEEE-754 double constant. -/
def mathPI : ℚ := 884279719003555 / 281474976710656

/-- The angle-wrap normalisation of `getMouseMovementEntropy`:
`if (angleChange > Math.PI) angleChange = 2 * Math.PI - angleChange`. -/
def normAngle (a : ℚ) : ℚ :=
  if mathPI < a then 2 * mathPI - a else a

/-- The distance accumulated by the loop of `getMouseMovementEntropy`: the sum
over consecutive pairs of `Math.sqrt(dx^2 + dy^2)`, with `Math.sqrt` supplied
as the parameter `msqrt`. -/
def totalDistanceOf (msqrt : ℚ → ℚ) (ps : List MousePos) : ℚ :=
  ((ps.zip ps.tail).map (fun pc =>
    msqrt ((pc.2.x - pc.1.x) ^ 2 + (pc.2.y - pc.1.y) ^ 2))).sum

/-- The angle change accumulated by the loop of `getMouseMovementEntropy` (the
`i > 1` branch): the sum over consecutive triples of the normalised absolute
difference of the two `Math.atan2` headings, with `Math.atan2` supplied as the
parameter `matan2` (first argument dy, second dx, as in JS). -/
def totalAngleChangeOf (matan2 : ℚ → ℚ → ℚ) (ps : List MousePos) : ℚ :=
  ((ps.zip (ps.tail.zip ps.tail.tail)).map (fun t =>
    let prevPrev := t.1
    let prev := t.2.1
    let curr := t.2.2
    let angle1 := matan2 (prev.y - prevPrev.y) (prev.x - prevPrev.x)
    let angle2 := matan2 (curr.y - prev.y) (curr.x - prev.x)
    normAngle |angle2 - angle1|)).sum

/-- Method `getMouseMovementEntropy()`.  The `return 0` branch (fewer than two
retained positions) is `none`; otherwise the total path length, and the average
angle change `totalAngleChange / (length - 2)` — which is `0 / 0 = NaN` when
exactly two positions are retained — reported twice (`smoothness` aliases
`averageAngleChange`). -/
def getMouseMovementEntropy (msqrt : ℚ → ℚ) (matan2 : ℚ → ℚ → ℚ)
    (s : BehaviorTracker) : Option MouseEntropy :=
  if s.mousePositions.length < 2 then none
  else
    let totalDistance := totalDistanceOf msqrt s.mousePositions
    let totalAngleChange := totalAngleChangeOf matan2 s.mousePositions
    let avgAngleChange := jsDiv totalAngleChange ((s.mousePositions.length : ℚ) - 2)
    some { totalDistance := totalDistance
           averageAngleChange := avgAngleChange
           smoothness := avgAngleChange }

/-- Method `startSeatHover()`: record the hover start only when `seatHoverStartTime`
is falsy (`null`, or the unreachable-in-practice clock value `0`). -/
def startSeatHover (s : BehaviorTracker) (now : ℚ) : BehaviorTracker :=
  if jsTruthyOpt s.seatHoverStartTime then s
  else { s with seatHoverStartTime := some now }

/-- Method `endSeatHover()`: when a hover is active (truthy start time), add the
elapsed time to the accumulator and clear the start time; otherwise a no-op. -/
def endSeatHover (s : BehaviorTracker) (now : ℚ) : BehaviorTracker :=
  match s.seatHoverStartTime with
  | some t =>
      if t ≠ 0 then
        { s with seatHesitationTime := s.seatHesitationTime + (now - t)
                 seatHoverStartTime := none }
      else s
  | none => s

/-- Method `getSeatHesitationTime()`. -/
def getSeatHesitationTime (s : BehaviorTracker) : ℚ :=
  s.seatHesitationTime

/-- Method `trackClick()`. -/
def trackClick (s : BehaviorTracker) : BehaviorTracker :=
  { s with totalClicks := s.totalClicks + 1 }

/-- Method `getTotalClicks()`. -/
def getTotalClicks (s : BehaviorTracker) : ℕ :=
  s.totalClicks

/-- The object returned by `getAllMetrics()`. -/
structure AllMetrics where
  sessionTime : ℚ
  seatHesitationTime : ℚ
  ktpKeystrokeDynamics : Option KTPDynamics
  fieldEditCount : ℕ
  mouseMovementEntropy : Option MouseEntropy
  totalClicks : ℕ
deriving DecidableEq

/-- Method `getAllMetrics()`: a read-only snapshot combining the getters. -/
def getAllMetrics (msqrt : ℚ → ℚ) (matan2 : ℚ → ℚ → ℚ)
    (s : BehaviorTracker) (now : ℚ) : AllMetrics where
  sessionTime := getSessionTime s now
  seatHesitationTime := getSeatHesitationTime s
  ktpKeystrokeDynamics := getKTPKeystrokeDynamics s
  fieldEditCount := getTotalFieldEdits s
  mouseMovementEntropy := getMouseMovementEntropy msqrt matan2 s
  totalClicks := getTotalClicks s

/-- Method `exportForML()`: the flattened object literal, modelled as the ordered list
of its (key, value) pairs — JS objects preserve string-key insertion order.
The `|| 0` defaults: a property read on the scalar `0` returned by a degenerate
getter is `undefined` and is replaced by `0`; `smoothness` can additionally be
`NaN`, also replaced by `0`; on a plain number `q`, `q || 0 = q`. -/
def exportForML (msqrt : ℚ → ℚ) (matan2 : ℚ → ℚ → ℚ)
    (s : BehaviorTracker) (now : ℚ) : List (String × ℚ) :=
  let metrics := getAllMetrics msqrt matan2 s now
  let ktpDynamics := metrics.ktpKeystrokeDynamics
  let mouseEntropy := metrics.mouseMovementEntropy
  [("session_time_ms", metrics.sessionTime),
   ("seat_hesitation_time_ms", metrics.seatHesitationTime),
   ("ktp_avg_keystroke_interval_ms",
      match ktpDynamics with | none => 0 | some d => d.averageInterval),
   ("ktp_keystroke_variance",
      match ktpDynamics with | none => 0 | some d => d.variance),
   ("ktp_total_entry_time_ms",
      match ktpDynamics with | none => 0 | some d => d.totalTime),
   ("ktp_paste_detected",
      match ktpDynamics with
      | none => 0
      | some d => if d.pasteDetected then 1 else 0),
   ("field_edit_count", (metrics.fieldEditCount : ℚ)),
   ("mouse_total_distance",
      match mouseEntropy with | none => 0 | some e => e.totalDistance),
   ("mouse_smoothness",
      match mouseEntropy with | none => 0 | some e => jsOrZero e.smoothness),
   ("total_clicks", (metrics.totalClicks : ℚ))]

/-- One step of a hover trace: `true` is a `startSeatHover` call, `false` an
`endSeatHover` call, paired with the clock value at the call. -/
def hoverStep (s : BehaviorTracker) (c : Bool × ℚ) : BehaviorTracker :=
  if c.1 then startSeatHover s c.2 else endSeatHover s c.2

/-- The Decision Gate state of the Checkout component
(`aiSecurityStatus ∈ { analyzing, passed, flagged }`). -/
inductive AIStatus where
  | analyzing
  | passed
  | flagged
deriving DecidableEq

/-- The JSON body returned by the scoring endpoint, as read by `runAIAnalysis`:
`prediction` is a string label; `confidence` and `trust_score` may be absent
(`none` models `undefined`). -/
structure AIResult where
  prediction : String
  confidence : Option ℚ
  trust_score : Option ℚ
deriving DecidableEq

/-- The score update of `runAIAnalysis`:
`setSecurityScore(result.confidence || result.trust_score || 0)` with JS
truthiness (absent and `0` are falsy). -/
def scoreOf (r : AIResult) : ℚ :=
  if jsTruthyOpt r.confidence then r.confidence.getD 0
  else if jsTruthyOpt r.trust_score then r.trust_score.getD 0
  else 0

/-- The status update of `runAIAnalysis` on a successful response:
`passed` when `prediction === 'human'` or a truthy confidence exceeds `0.7`;
otherwise `flagged` when `prediction === 'bot'` or a truthy confidence is below
`0.3`; otherwise `analyzing`. -/
def verdictOf (r : AIResult) : AIStatus :=
  if r.prediction = "human" ∨ (jsTruthyOpt r.confidence ∧ (7 : ℚ)/10 < r.confidence.getD 0) then
    AIStatus.passed
  else if r.prediction = "bot" ∨ (jsTruthyOpt r.confidence ∧ r.confidence.getD 0 < (3 : ℚ)/10) then
    AIStatus.flagged
  else
    AIStatus.analyzing

/-- Transport outcome of one scoring call: the `fetch` (or body parse) throws,
the response arrives with `ok` false, or the response arrives `ok` carrying a
parsed result. -/
inductive FetchOutcome where
  | fetchThrow
  | fetchNotOk
  | fetchOk : AIResult → FetchOutcome
deriving DecidableEq

/-- Function `runAIAnalysis` of the Checkout component, as a transition on the
pair (gate status, displayed score).  On a thrown transport error the `catch`
block sets the status to `analyzing` (score untouched); on a non-`ok` response
nothing is updated; on an `ok` response the score and then the status are set
from the result. -/
def runAIAnalysis (status : AIStatus) (score : Option ℚ) (outcome : FetchOutcome) :
    AIStatus × Option ℚ :=
  match outcome with
  | FetchOutcome.fetchThrow => (AIStatus.analyzing, score)
  | FetchOutcome.fetchNotOk => (status, score)
  | FetchOutcome.fetchOk r => (verdictOf r, some (scoreOf r))

/-- The `paymentInfo` state object of the Checkout component. -/
structure PaymentInfo where
  cardNumber : String
  cardName : String
  expiryDate : String
  cvv : String
  bankName : String
  virtualAccount : String
  ewalletPhone : String
deriving DecidableEq

/-- The render-time state of the Checkout component that `handleSubmit` closes
over. -/
structure CheckoutState where
  paymentMethod : String
  aiSecurityStatus : AIStatus
  securityScore : Option ℚ
  paymentInfo : PaymentInfo
deriving DecidableEq

/-- The per-payment-method validation of `handleSubmit` (an empty string is
falsy; a payment method other than the three radio values skips validation). -/
def validPaymentDetails (st : CheckoutState) : Bool :=
  if st.paymentMethod = "credit-card" then
    st.paymentInfo.cardNumber != "" && st.paymentInfo.cardName != "" &&
      st.paymentInfo.expiryDate != "" && st.paymentInfo.cvv != ""
  else if st.paymentMethod = "bank-transfer" then
    st.paymentInfo.bankName != ""
  else if st.paymentMethod = "ewallet" then
    st.paymentInfo.ewalletPhone != ""
  else
    true

/-- Outcome of one `handleSubmit` call: an early return with the security
alert, an early return with a validation alert, or a call to `onComplete`
whose `securityCheck` payload carries the given status and score. -/
inductive SubmitResult where
  | blocked : String → SubmitResult
  | invalidDetails : String → SubmitResult
  | completed : AIStatus → Option ℚ → SubmitResult
deriving DecidableEq

/-- Function `handleSubmit` of the Checkout component.  The flagged check and
the `onComplete` payload read the render-scope constants
`aiSecurityStatus` / `securityScore`: the `setAiSecurityStatus` /
`setSecurityScore` calls made inside the awaited `runAIAnalysis` do not
reassign those constants, they only schedule the state used by the next render
(returned here as the second component). -/
def handleSubmit (st : CheckoutState) (outcome : FetchOutcome) :
    SubmitResult × CheckoutState :=
  if st.aiSecurityStatus = AIStatus.flagged then
    (SubmitResult.blocked "Security check failed. Please contact customer support.", st)
  else if !(validPaymentDetails st) then
    (SubmitResult.invalidDetails "Please fill in the required payment details", st)
  else
    let rescored := runAIAnalysis st.aiSecurityStatus st.securityScore outcome
    (SubmitResult.completed st.aiSecurityStatus st.securityScore,
     { st with aiSecurityStatus := rescored.1, securityScore := rescored.2 })

/-- The JSON body of a POST to `/api/save-training-data`: `user_id` plus the
rest of the fields (`none` models an absent / `undefined` / `null` field). -/
structure TrainingBody where
  user_id : Option String
  session_time_ms : Option ℚ
  seat_hesitation_time_ms : Option ℚ
  ktp_avg_keystroke_interval_ms : Option ℚ
  ktp_keystroke_variance : Option ℚ
  ktp_total_entry_time_ms : Option ℚ
  ktp_paste_detected : Option ℚ
  field_edit_count : Option ℚ
  mouse_total_distance : Option ℚ
  mouse_smoothness : Option ℚ
  total_clicks : Option ℚ
deriving DecidableEq

/-- The row inserted into `raw_train_data` (nullable columns are `Option`). -/
structure StoredRow where
  user_id : String
  session_time_ms : ℚ
  seat_hesitation_time_ms : ℚ
  ktp_avg_keystroke_interval_ms : Option ℚ
  ktp_keystroke_variance : Option ℚ
  ktp_total_entry_time_ms : Option ℚ
  ktp_paste_detected : ℚ
  field_edit_count : ℚ
  mouse_total_distance : Option ℚ
  mouse_smoothness : Option ℚ
  total_clicks : ℚ
deriving DecidableEq

/-- The JavaScript idiom `x || 0` on a possibly-absent number: absent (or `0`)
becomes `0`, any other number is kept. -/
def jsOrZeroOpt : Option ℚ → ℚ
  | none => 0
  | some q => q

/-- The JavaScript idiom `x || null` on a possibly-absent number: absent stays
absent, a supplied `0` is falsy and becomes `null`, any other number is kept. -/
def jsOrNullOpt : Option ℚ → Option ℚ
  | none => none
  | some q => if q = 0 then none else some q

/-- The POST handler of `/api/save-training-data`: reject a falsy `user_id`
(absent or empty string) with the 400 error, otherwise insert one row with the
`|| 0` defaults on `session_time_ms`, `seat_hesitation_time_ms`,
`ktp_paste_detected`, `field_edit_count`, `total_clicks` and the `|| null`
defaults on the other five numeric fields. -/
def savePOST (body : TrainingBody) : Except String StoredRow :=
  match body.user_id with
  | none => Except.error "Missing user_id"
  | some uid =>
      if uid = "" then Except.error "Missing user_id"
      else Except.ok
        { user_id := uid
          session_time_ms := jsOrZeroOpt body.session_time_ms
          seat_hesitation_time_ms := jsOrZeroOpt body.seat_hesitation_time_ms
          ktp_avg_keystroke_interval_ms := jsOrNullOpt body.ktp_avg_keystroke_interval_ms
          ktp_keystroke_variance := jsOrNullOpt body.ktp_keystroke_variance
          ktp_total_entry_time_ms := jsOrNullOpt body.ktp_total_entry_time_ms
          ktp_paste_detected := jsOrZeroOpt body.ktp_paste_detected
          field_edit_count := jsOrZeroOpt body.field_edit_count
          mouse_total_distance := jsOrNullOpt body.mouse_total_distance
          mouse_smoothness := jsOrNullOpt body.mouse_smoothness
          total_clicks := jsOrZeroOpt body.total_clicks }

/-! Concrete instances used by counterexamples and witnesses. -/

/-- A computable stand-in for `Math.sqrt`, used only to instantiate the
`msqrt` parameter on concrete states; it is exact on the single radicand
(`3^2 + 4^2 = 25`) occurring in those states. -/
def sqrtStub : ℚ → ℚ := fun q => if q = 25 then 5 else 0

/-- A computable stand-in for `Math.atan2`, used only to instantiate the
`matan2` parameter on concrete states in which no angle is ever computed. -/
def atanStub : ℚ → ℚ → ℚ := fun _ _ => 0

/-- A session whose four recorded events are `keydown` events on one field at
timestamps `t`, `t + 10`, `t + 20`, `t + 30`. -/
def ktpScenario (t : ℚ) : BehaviorTracker :=
  trackKTPKeystroke (trackKTPKeystroke (trackKTPKeystroke (trackKTPKeystroke
    (mkTracker t) "ktpNumber" "keydown" "3" t)
    "ktpNumber" "keydown" "31" (t + 10))
    "ktpNumber" "keydown" "317" (t + 20))
    "ktpNumber" "keydown" "3171" (t + 30)

/-- A session whose three recorded events are `keydown` events on one field at
timestamps `t`, `t + 10`, `t + 30` (unequal intervals, so population and
sample variance differ: 25 versus 50). -/
def ktpScenarioUneven (t : ℚ) : BehaviorTracker :=
  trackKTPKeystroke (trackKTPKeystroke (trackKTPKeystroke
    (mkTracker t) "ktpNumber" "keydown" "3" t)
    "ktpNumber" "keydown" "31" (t + 10))
    "ktpNumber" "keydown" "317" (t + 30)

/-- A session whose only recorded keystroke-class event is a single `paste`
(no `keydown` events at all). -/
def pasteOnlyTracker : BehaviorTracker :=
  trackKTPKeystroke (mkTracker 0) "ktpNumber" "paste" "3171234567890001" 1000

/-- A session with two recorded keystroke-class events of which only one is a
`keydown` (a keydown then a keyup). -/
def oneKeydownTracker : BehaviorTracker :=
  trackKTPKeystroke (trackKTPKeystroke (mkTracker 0)
    "ktpNumber" "keydown" "3" 100) "ktpNumber" "keyup" "3" 180

/-- A session retaining exactly two pointer samples, `(0,0)` then `(3,4)`
(Euclidean distance 5). -/
def twoSampleTracker : BehaviorTracker :=
  trackMouseMovement (trackMouseMovement (mkTracker 0) 0 0 100) 3 4 200

/-- A tracker whose pointer-sample buffer is exactly full (100 retained
samples). -/
def fullBufferTracker : BehaviorTracker :=
  { mkTracker 0 with
      mousePositions := (List.range 100).map (fun i => { x := (i : ℚ), y := 0, timestamp := (i : ℚ) }) }

/-- A tracker with an active hover that started at clock value 30. -/
def hoverActiveTracker : BehaviorTracker :=
  { mkTracker 5 with seatHoverStartTime := some 30 }

/-- Checkout state at submission time: gate still `analyzing`, a valid e-wallet
payment, prior displayed score `0.8`. -/
def analyzingCheckoutState : CheckoutState where
  paymentMethod := "ewallet"
  aiSecurityStatus := AIStatus.analyzing
  securityScore := some (8/10)
  paymentInfo :=
    { cardNumber := "", cardName := "", expiryDate := "", cvv := ""
      bankName := "", virtualAccount := "", ewalletPhone := "081234567890" }

/-- A scoring response whose verdict is `flagged` (`prediction = 'bot'`,
confidence `0.1`). -/
def botVerdictResult : AIResult where
  prediction := "bot"
  confidence := some (1/10)
  trust_score := none

/-- A training-data body supplying a genuinely measured zero for each of the
five nullable feature fields and for the zero-defaulted fields. -/
def zeroFeaturesBody : TrainingBody where
  user_id := some "user-7"
  session_time_ms := some 0
  seat_hesitation_time_ms := some 0
  ktp_avg_keystroke_interval_ms := some 0
  ktp_keystroke_variance := some 0
  ktp_total_entry_time_ms := some 0
  ktp_paste_detected := some 0
  field_edit_count := some 0
  mouse_total_distance := some 0
  mouse_smoothness := some 0
  total_clicks := some 0

/-! Helper lemmas (shared; not tied to a single claim). -/

/-- Helper: the null-coercion of the ingestion route is idempotent, so a
supplied zero stores identically to an absent field. -/
theorem jsOrNullOpt_idem (x : Option ℚ) : jsOrNullOpt (jsOrNullOpt x) = jsOrNullOpt x := by
  cases x with
  | none => rfl
  | some q => by_cases h : q = 0 <;> simp [jsOrNullOpt, h]

/-- Helper: with fewer than two keydown events, `getKTPKeystrokeDynamics` takes
one of its scalar-zero early returns. -/
theorem getKTPKeystrokeDynamics_eq_none (s : BehaviorTracker)
    (h : (s.ktpKeystrokeData.filter (fun e => e.eventType = "keydown")).length < 2) :
    getKTPKeystrokeDynamics s = none := by
  rw [getKTPKeystrokeDynamics]
  by_cases h1 : s.ktpKeystrokeData.length < 2
  · rw [if_pos h1]
  · rw [if_neg h1]
    exact if_pos h

/-- Helper: with at least two keydown events, `getKTPKeystrokeDynamics` returns
an object whose `pasteDetected` is the paste scan over all recorded events. -/
theorem getKTPKeystrokeDynamics_paste (s : BehaviorTracker)
    (h : 2 ≤ (s.ktpKeystrokeData.filter (fun e => e.eventType = "keydown")).length) :
    ∃ d, getKTPKeystrokeDynamics s = some d ∧
      d.pasteDetected = s.ktpKeystrokeData.any (fun e => e.eventType = "paste") := by
  have hlen : (s.ktpKeystrokeData.filter (fun e => e.eventType = "keydown")).length ≤
      s.ktpKeystrokeData.length := List.length_filter_le _ _
  have h2 : ¬ (s.ktpKeystrokeData.filter (fun e => e.eventType = "keydown")).length < 2 := by
    omega
  rw [getKTPKeystrokeDynamics, if_neg (by omega : ¬ s.ktpKeystrokeData.length < 2)]
  exact ⟨_, if_neg h2, rfl⟩

/-! Theorems settling the claims. -/

/-- C3: in every execution of the Decision Gate, a transport failure (the fetch
throws, or the response is not ok) leaves a gate state of `analyzing` at
`analyzing` — it never transitions out of `analyzing`, in particular never to
`passed` — and leaves the displayed score untouched. -/
theorem analyzing_stays_analyzing_on_transport_failure (score : Option ℚ) :
    runAIAnalysis AIStatus.analyzing score FetchOutcome.fetchThrow =
      (AIStatus.analyzing, score) ∧
    runAIAnalysis AIStatus.analyzing score FetchOutcome.fetchNotOk =
      (AIStatus.analyzing, score) := by
  exact ⟨rfl, rfl⟩

/-- C1 (code bug witness): at a submission whose forced final re-score returns
a `flagged` verdict (`prediction = 'bot'`, confidence 0.1), `handleSubmit`
nevertheless calls `onComplete` — the blocking check ran before the re-score,
against the prior `analyzing` state — and the completion payload reports the
stale pre-re-score status `analyzing` and score `0.8`, because the awaited
`setAiSecurityStatus` / `setSecurityScore` only affect the next render. -/
theorem handleSubmit_completes_despite_flagged_final_rescore :
    verdictOf botVerdictResult = AIStatus.flagged ∧
    handleSubmit analyzingCheckoutState (FetchOutcome.fetchOk botVerdictResult) =
      (SubmitResult.completed AIStatus.analyzing (some (8/10)),
       { analyzingCheckoutState with
           aiSecurityStatus := AIStatus.flagged
           securityScore := some (1/10) }) := by
  have hv : verdictOf botVerdictResult = AIStatus.flagged := by
    rw [verdictOf]
    rw [if_neg (by simp [botVerdictResult, jsTruthyOpt]; norm_num),
        if_pos (by simp [botVerdictResult])]
  have hs : scoreOf botVerdictResult = 1/10 := by
    rw [scoreOf, if_pos (by simp [botVerdictResult, jsTruthyOpt])]
    rfl
  refine ⟨hv, ?_⟩
  rw [handleSubmit]
  rw [if_neg (by simp [analyzingCheckoutState])]
  rw [if_neg (by simp [validPaymentDetails, analyzingCheckoutState])]
  simp [runAIAnalysis, analyzingCheckoutState, hv, hs]

/-- C10: at the training-data ingestion endpoint, for every body carrying a
(truthy) user id the insert succeeds, a supplied `0` for any of
`ktp_avg_keystroke_interval_ms`, `ktp_keystroke_variance`,
`ktp_total_entry_time_ms`, `mouse_total_distance`, `mouse_smoothness` is
stored as `null` (so the stored record equals the one for a body with those
zeros absent), while the remaining numeric fields store `0` for a falsy
supplied value (`0` or absent). -/
theorem savePOST_zero_coerced_to_null (b : TrainingBody) (uid : String)
    (huid : b.user_id = some uid) (hne : uid ≠ "") :
    (∃ r, savePOST b = Except.ok r) ∧
    (∀ r, savePOST b = Except.ok r →
      ((b.ktp_avg_keystroke_interval_ms = some 0 → r.ktp_avg_keystroke_interval_ms = none) ∧
       (b.ktp_keystroke_variance = some 0 → r.ktp_keystroke_variance = none) ∧
       (b.ktp_total_entry_time_ms = some 0 → r.ktp_total_entry_time_ms = none) ∧
       (b.mouse_total_distance = some 0 → r.mouse_total_distance = none) ∧
       (b.mouse_smoothness = some 0 → r.mouse_smoothness = none) ∧
       (b.session_time_ms = some 0 ∨ b.session_time_ms = none → r.session_time_ms = 0) ∧
       (b.seat_hesitation_time_ms = some 0 ∨ b.seat_hesitation_time_ms = none →
          r.seat_hesitation_time_ms = 0) ∧
       (b.ktp_paste_detected = some 0 ∨ b.ktp_paste_detected = none →
          r.ktp_paste_detected = 0) ∧
       (b.field_edit_count = some 0 ∨ b.field_edit_count = none → r.field_edit_count = 0) ∧
       (b.total_clicks = some 0 ∨ b.total_clicks = none → r.total_clicks = 0))) ∧
    savePOST b =
      savePOST { b with
        ktp_avg_keystroke_interval_ms := jsOrNullOpt b.ktp_avg_keystroke_interval_ms
        ktp_keystroke_variance := jsOrNullOpt b.ktp_keystroke_variance
        ktp_total_entry_time_ms := jsOrNullOpt b.ktp_total_entry_time_ms
        mouse_total_distance := jsOrNullOpt b.mouse_total_distance
        mouse_smoothness := jsOrNullOpt b.mouse_smoothness } := by
  have hb : savePOST b = Except.ok
      { user_id := uid
        session_time_ms := jsOrZeroOpt b.session_time_ms
        seat_hesitation_time_ms := jsOrZeroOpt b.seat_hesitation_time_ms
        ktp_avg_keystroke_interval_ms := jsOrNullOpt b.ktp_avg_keystroke_interval_ms
        ktp_keystroke_variance := jsOrNullOpt b.ktp_keystroke_variance
        ktp_total_entry_time_ms := jsOrNullOpt b.ktp_total_entry_time_ms
        ktp_paste_detected := jsOrZeroOpt b.ktp_paste_detected
        field_edit_count := jsOrZeroOpt b.field_edit_count
        mouse_total_distance := jsOrNullOpt b.mouse_total_distance
        mouse_smoothness := jsOrNullOpt b.mouse_smoothness
        total_clicks := jsOrZeroOpt b.total_clicks } := by
    simp [savePOST, huid, hne]
  refine ⟨⟨_, hb⟩, ?_, ?_⟩
  · intro r hr
    rw [hb] at hr
    injection hr with hr
    subst hr
    refine ⟨fun h => by simp [h, jsOrNullOpt], fun h => by simp [h, jsOrNullOpt],
            fun h => by simp [h, jsOrNullOpt], fun h => by simp [h, jsOrNullOpt],
            fun h => by simp [h, jsOrNullOpt], ?_, ?_, ?_, ?_, ?_⟩ <;>
      (rintro (h | h) <;> simp [h, jsOrZeroOpt])
  · simp [savePOST, huid, hne, jsOrNullOpt_idem]

/-- C10 witness: a concrete body supplying measured zeros everywhere stores the
same row as the body with the five nullable zeros absent. -/
theorem savePOST_zero_coerced_to_null_witness :
    savePOST zeroFeaturesBody =
      savePOST { zeroFeaturesBody with
        ktp_avg_keystroke_interval_ms := jsOrNullOpt zeroFeaturesBody.ktp_avg_keystroke_interval_ms
        ktp_keystroke_variance := jsOrNullOpt zeroFeaturesBody.ktp_keystroke_variance
        ktp_total_entry_time_ms := jsOrNullOpt zeroFeaturesBody.ktp_total_entry_time_ms
        mouse_total_distance := jsOrNullOpt zeroFeaturesBody.mouse_total_distance
        mouse_smoothness := jsOrNullOpt zeroFeaturesBody.mouse_smoothness } :=
  (savePOST_zero_coerced_to_null zeroFeaturesBody "user-7" rfl (by decide)).2.2

/-- C4 counterexample: a session whose only recorded event is one paste (no
keydown events) exports `ktp_paste_detected = 0`, not `1`: the dynamics getter
takes its scalar-zero branch, so the paste flag never reaches the export. -/
theorem paste_without_keydowns_exports_zero :
    pasteOnlyTracker.ktpKeystrokeData.any (fun e => e.eventType = "paste") = true ∧
    (exportForML sqrtStub atanStub pasteOnlyTracker 2000).lookup "ktp_paste_detected" =
      some 0 := by
  decide

/-- C4 (amended): the exported `ktp_paste_detected` is `1` exactly when a paste
event was recorded AND at least two `keydown` events were recorded; with fewer
than two keydowns it is `0` even if a paste occurred, because the dynamics
getter returns its scalar `0` and the paste flag never reaches the export. -/
theorem ktp_paste_detected_requires_two_keydowns (msqrt : ℚ → ℚ) (matan2 : ℚ → ℚ → ℚ)
    (s : BehaviorTracker) (now : ℚ) :
    (exportForML msqrt matan2 s now).lookup "ktp_paste_detected" =
      some (if 2 ≤ (s.ktpKeystrokeData.filter (fun e => e.eventType = "keydown")).length ∧
               s.ktpKeystrokeData.any (fun e => e.eventType = "paste") = true
            then 1 else 0) := by
  by_cases h : 2 ≤ (s.ktpKeystrokeData.filter (fun e => e.eventType = "keydown")).length
  · obtain ⟨d, hd, hp⟩ := getKTPKeystrokeDynamics_paste s h
    simp [exportForML, getAllMetrics, List.lookup, hd, hp, h]
  · have hnone := getKTPKeystrokeDynamics_eq_none s (by omega)
    simp [exportForML, getAllMetrics, List.lookup, hnone, h]

/-- C7: in a session with fewer than two `keydown` keystroke events, the four
exported keystroke-dynamics features all equal their defined default `0` (they
are present in the vector, never missing). -/
theorem ktp_exports_default_under_two_keydowns (msqrt : ℚ → ℚ) (matan2 : ℚ → ℚ → ℚ)
    (s : BehaviorTracker) (now : ℚ)
    (h : (s.ktpKeystrokeData.filter (fun e => e.eventType = "keydown")).length < 2) :
    (exportForML msqrt matan2 s now).lookup "ktp_avg_keystroke_interval_ms" = some 0 ∧
    (exportForML msqrt matan2 s now).lookup "ktp_keystroke_variance" = some 0 ∧
    (exportForML msqrt matan2 s now).lookup "ktp_total_entry_time_ms" = some 0 ∧
    (exportForML msqrt matan2 s now).lookup "ktp_paste_detected" = some 0 := by
  have hnone := getKTPKeystrokeDynamics_eq_none s h
  refine ⟨?_, ?_, ?_, ?_⟩ <;> simp [exportForML, getAllMetrics, List.lookup, hnone]

/-- C7 witness: a session with two recorded events of which only one is a
`keydown` exports all four keystroke-dynamics defaults. -/
theorem ktp_exports_default_under_two_keydowns_witness :
    (exportForML sqrtStub atanStub oneKeydownTracker 500).lookup
        "ktp_avg_keystroke_interval_ms" = some 0 ∧
    (exportForML sqrtStub atanStub oneKeydownTracker 500).lookup
        "ktp_keystroke_variance" = some 0 ∧
    (exportForML sqrtStub atanStub oneKeydownTracker 500).lookup
        "ktp_total_entry_time_ms" = some 0 ∧
    (exportForML sqrtStub atanStub oneKeydownTracker 500).lookup
        "ktp_paste_detected" = some 0 :=
  ktp_exports_default_under_two_keydowns sqrtStub atanStub oneKeydownTracker 500 (by decide)

/-- C8: for keydown timestamps `t, t+10, t+20, t+30` on one field the dynamics
are `averageInterval = 10`, `variance = 0`, `totalTime = 30`; and for the
unequal timestamps `t, t+10, t+30` the variance is `25`, the population
variance of the intervals `[10, 20]` (division by the interval count 2 — the
sample variance would be 50). -/
theorem ktp_scenario_dynamics (t : ℚ) :
    getKTPKeystrokeDynamics (ktpScenario t) =
      some { averageInterval := 10, variance := 0, totalTime := 30, pasteDetected := false } ∧
    getKTPKeystrokeDynamics (ktpScenarioUneven t) =
      some { averageInterval := 15, variance := 25, totalTime := 30, pasteDetected := false } := by
  constructor <;>
    · simp [ktpScenario, ktpScenarioUneven, mkTracker, trackKTPKeystroke,
            getKTPKeystrokeDynamics, consecutiveDiffs, List.zipWith, List.getLast?]
      norm_num

/-- C2: the Feature Extractor has a fixed output shape — `exportForML` returns
the ten canonical fields, in the canonical order, on every recorder state and
at every clock instant, so any two consecutive invocations on the same session
produce vectors of identical field order and cardinality.  (Neither
`exportForML` nor `getAllMetrics` writes the recorder state: in the source both
methods only call getters, which is why both are embedded as read-only
functions of the state.) -/
theorem exportForML_fixed_shape (msqrt : ℚ → ℚ) (matan2 : ℚ → ℚ → ℚ)
    (s : BehaviorTracker) (now now2 : ℚ) :
    (exportForML msqrt matan2 s now).map Prod.fst =
      ["session_time_ms", "seat_hesitation_time_ms", "ktp_avg_keystroke_interval_ms",
       "ktp_keystroke_variance", "ktp_total_entry_time_ms", "ktp_paste_detected",
       "field_edit_count", "mouse_total_distance", "mouse_smoothness", "total_clicks"] ∧
    (exportForML msqrt matan2 s now).length = 10 ∧
    (exportForML msqrt matan2 s now).map Prod.fst =
      (exportForML msqrt matan2 s now2).map Prod.fst :=
  ⟨rfl, rfl, rfl⟩

/-- Helper: one `trackMouseMovement` call preserves the 100-sample bound. -/
theorem trackMouseMovement_length_le (s : BehaviorTracker) (x y now : ℚ)
    (h : s.mousePositions.length ≤ 100) :
    (trackMouseMovement s x y now).mousePositions.length ≤ 100 := by
  simp only [trackMouseMovement]
  split_ifs with h1 <;> simp_all

/-- C6: the pointer-sample buffer holds at most 100 entries after every call of
any `trackMouseMovement` sequence from a fresh tracker; and once the buffer is
full (exactly 100 retained samples) each new sample evicts exactly the single
oldest retained sample, in strict FIFO order. -/
theorem mouse_buffer_bound_and_fifo :
    (∀ (calls : List (ℚ × ℚ × ℚ)) (t0 : ℚ),
      ((calls.foldl (fun s c => trackMouseMovement s c.1 c.2.1 c.2.2)
          (mkTracker t0)).mousePositions).length ≤ 100) ∧
    (∀ (s : BehaviorTracker) (x y now : ℚ), s.mousePositions.length = 100 →
      (trackMouseMovement s x y now).mousePositions =
        s.mousePositions.tail ++ [{ x := x, y := y, timestamp := now }]) := by
  constructor
  · have aux : ∀ (calls : List (ℚ × ℚ × ℚ)) (s : BehaviorTracker),
        s.mousePositions.length ≤ 100 →
        ((calls.foldl (fun s c => trackMouseMovement s c.1 c.2.1 c.2.2)
            s).mousePositions).length ≤ 100 := by
      intro calls
      induction calls with
      | nil => intro s h; simpa using h
      | cons c rest ih =>
          intro s h
          exact ih _ (trackMouseMovement_length_le s c.1 c.2.1 c.2.2 h)
    intro calls t0
    exact aux calls (mkTracker t0) (by simp [mkTracker])
  · intro s x y now h
    simp only [trackMouseMovement]
    rw [if_pos (by simp [h])]
    cases hps : s.mousePositions with
    | nil => rw [hps] at h; simp at h
    | cons a l => simp

/-- C6 witness: the bound at the empty call sequence, and the FIFO step on a
concretely full buffer. -/
theorem mouse_buffer_bound_and_fifo_witness :
    ((([] : List (ℚ × ℚ × ℚ)).foldl (fun s c => trackMouseMovement s c.1 c.2.1 c.2.2)
        (mkTracker 0)).mousePositions).length ≤ 100 ∧
    (trackMouseMovement fullBufferTracker 7 8 9).mousePositions =
      fullBufferTracker.mousePositions.tail ++ [{ x := 7, y := 8, timestamp := 9 }] :=
  ⟨mouse_buffer_bound_and_fifo.1 [] 0,
   mouse_buffer_bound_and_fifo.2 fullBufferTracker 7 8 9 rfl⟩

/-- C5 counterexample: with exactly two retained samples, `(0,0)` then `(3,4)`,
`getMouseMovementEntropy` reports `smoothness = NaN` (the `0 / 0` average angle
change), not zero — while the total distance is the valid applied square root
of `3^2 + 4^2 = 25`, here `5`. -/
theorem two_sample_smoothness_is_nan :
    (getMouseMovementEntropy sqrtStub atanStub twoSampleTracker).map
        MouseEntropy.smoothness = some JsNum.nan ∧
    JsNum.nan ≠ JsNum.num 0 ∧
    (getMouseMovementEntropy sqrtStub atanStub twoSampleTracker).map
        MouseEntropy.totalDistance = some 5 := by
  refine ⟨?_, by simp, ?_⟩ <;>
    norm_num [twoSampleTracker, trackMouseMovement, mkTracker, getMouseMovementEntropy,
              totalDistanceOf, totalAngleChangeOf, jsDiv, sqrtStub, atanStub]

/-- C5 (amended): with fewer than two retained pointer samples the entropy
getter returns its scalar zero and both exported mouse features are `0`; with
exactly two retained samples the getter reports the valid total Euclidean
distance between them (the applied `Math.sqrt` of the squared distance) but a
smoothness of `NaN` (`0 / 0`), which `exportForML` coerces to `0` via `|| 0` —
neither value is ever `undefined` at the export. -/
theorem mouse_features_small_samples (msqrt : ℚ → ℚ) (matan2 : ℚ → ℚ → ℚ)
    (s : BehaviorTracker) (now : ℚ) :
    (s.mousePositions.length < 2 →
      getMouseMovementEntropy msqrt matan2 s = none ∧
      (exportForML msqrt matan2 s now).lookup "mouse_total_distance" = some 0 ∧
      (exportForML msqrt matan2 s now).lookup "mouse_smoothness" = some 0) ∧
    (∀ p q, s.mousePositions = [p, q] →
      getMouseMovementEntropy msqrt matan2 s =
        some { totalDistance := msqrt ((q.x - p.x) ^ 2 + (q.y - p.y) ^ 2)
               averageAngleChange := JsNum.nan
               smoothness := JsNum.nan } ∧
      (exportForML msqrt matan2 s now).lookup "mouse_total_distance" =
        some (msqrt ((q.x - p.x) ^ 2 + (q.y - p.y) ^ 2)) ∧
      (exportForML msqrt matan2 s now).lookup "mouse_smoothness" = some 0) := by
  constructor
  · intro h
    have hnone : getMouseMovementEntropy msqrt matan2 s = none := by
      rw [getMouseMovementEntropy, if_pos h]
    exact ⟨hnone,
      by simp [exportForML, getAllMetrics, List.lookup, hnone],
      by simp [exportForML, getAllMetrics, List.lookup, hnone]⟩
  · intro p q hpq
    have hsome : getMouseMovementEntropy msqrt matan2 s =
        some { totalDistance := msqrt ((q.x - p.x) ^ 2 + (q.y - p.y) ^ 2)
               averageAngleChange := JsNum.nan
               smoothness := JsNum.nan } := by
      rw [getMouseMovementEntropy, if_neg (by rw [hpq]; simp)]
      simp [hpq, totalDistanceOf, totalAngleChangeOf, jsDiv]
    exact ⟨hsome,
      by simp [exportForML, getAllMetrics, List.lookup, hsome],
      by simp [exportForML, getAllMetrics, List.lookup, hsome, jsOrZero]⟩

/-- C5 witness: the degenerate branch on a fresh tracker and the two-sample
branch on the concrete `(0,0)`, `(3,4)` state. -/
theorem mouse_features_small_samples_witness :
    (getMouseMovementEntropy sqrtStub atanStub (mkTracker 0) = none ∧
      (exportForML sqrtStub atanStub (mkTracker 0) 9).lookup "mouse_total_distance" = some 0 ∧
      (exportForML sqrtStub atanStub (mkTracker 0) 9).lookup "mouse_smoothness" = some 0) ∧
    (getMouseMovementEntropy sqrtStub atanStub twoSampleTracker =
        some { totalDistance := sqrtStub ((3 - 0) ^ 2 + (4 - 0) ^ 2)
               averageAngleChange := JsNum.nan
               smoothness := JsNum.nan } ∧
      (exportForML sqrtStub atanStub twoSampleTracker 9).lookup "mouse_total_distance" =
        some (sqrtStub ((3 - 0) ^ 2 + (4 - 0) ^ 2)) ∧
      (exportForML sqrtStub atanStub twoSampleTracker 9).lookup "mouse_smoothness" = some 0) :=
  ⟨(mouse_features_small_samples sqrtStub atanStub (mkTracker 0) 9).1 (by simp [mkTracker]),
   (mouse_features_small_samples sqrtStub atanStub twoSampleTracker 9).2
     { x := 0, y := 0, timestamp := 100 } { x := 3, y := 4, timestamp := 200 }
     (by simp [twoSampleTracker, trackMouseMovement, mkTracker])⟩

/-- Helper: a `startSeatHover` call never changes the accumulator. -/
theorem startSeatHover_hesitation_eq (s : BehaviorTracker) (now : ℚ) :
    (startSeatHover s now).seatHesitationTime = s.seatHesitationTime := by
  unfold startSeatHover
  split_ifs <;> rfl

/-- Helper: an `endSeatHover` call cannot decrease the accumulator, provided
any active hover started no later than the call's clock value. -/
theorem endSeatHover_hesitation_mono (s : BehaviorTracker) (now : ℚ)
    (h : ∀ t, s.seatHoverStartTime = some t → t ≤ now) :
    s.seatHesitationTime ≤ (endSeatHover s now).seatHesitationTime := by
  cases hst : s.seatHoverStartTime with
  | none => simp [endSeatHover, hst]
  | some t =>
      by_cases ht : t = 0
      · simp [endSeatHover, hst, ht]
      · have := h t hst
        simp [endSeatHover, hst, ht]
        linarith

/-- Helper: one hover-trace step cannot decrease the accumulator under the
same clock-consistency condition. -/
theorem hoverStep_hesitation_mono (s : BehaviorTracker) (c : Bool × ℚ)
    (h : ∀ t, s.seatHoverStartTime = some t → t ≤ c.2) :
    s.seatHesitationTime ≤ (hoverStep s c).seatHesitationTime := by
  by_cases hb : c.1 = true
  · simp [hoverStep, hb, startSeatHover_hesitation_eq]
  · simp only [hoverStep, hb, if_false, Bool.false_eq_true]
    exact endSeatHover_hesitation_mono s c.2 h

/-- Helper: after one hover-trace step the stored hover start is cleared, set
to that step's clock value, or left unchanged. -/
theorem hoverStep_startTime_cases (s : BehaviorTracker) (c : Bool × ℚ) :
    (hoverStep s c).seatHoverStartTime = none ∨
    (hoverStep s c).seatHoverStartTime = some c.2 ∨
    (hoverStep s c).seatHoverStartTime = s.seatHoverStartTime := by
  by_cases hb : c.1 = true
  · simp only [hoverStep, hb, if_true, startSeatHover]
    split_ifs
    · right; right; rfl
    · right; left; rfl
  · simp only [hoverStep, hb, if_false, Bool.false_eq_true]
    cases hst : s.seatHoverStartTime with
    | none => right; right; simp [endSeatHover, hst]
    | some t =>
        by_cases ht : t = 0
        · right; right; simp [endSeatHover, hst, ht]
        · left; simp [endSeatHover, hst, ht]

/-- Helper: along any hover trace with nondecreasing clock values (and any
active hover started before the trace), the accumulator never decreases. -/
theorem hover_trace_mono (trace : List (Bool × ℚ)) (s : BehaviorTracker)
    (hsorted : trace.Pairwise (fun a b => a.2 ≤ b.2))
    (hstart : ∀ t, s.seatHoverStartTime = some t → ∀ c ∈ trace, t ≤ c.2) :
    s.seatHesitationTime ≤ (trace.foldl hoverStep s).seatHesitationTime := by
  induction trace generalizing s with
  | nil => simp
  | cons c rest ih =>
      have hc : ∀ t, s.seatHoverStartTime = some t → t ≤ c.2 := fun t ht =>
        hstart t ht c (List.mem_cons_self c rest)
      refine le_trans (hoverStep_hesitation_mono s c hc) ?_
      have hfold : (List.foldl hoverStep s (c :: rest)) =
          List.foldl hoverStep (hoverStep s c) rest := rfl
      rw [hfold]
      refine ih (hoverStep s c) (List.pairwise_cons.mp hsorted).2 ?_
      intro t ht c2 hc2
      rcases hoverStep_startTime_cases s c with h0 | h0 | h0
      · rw [h0] at ht; cases ht
      · rw [h0] at ht
        injection ht with ht
        subst ht
        exact (List.pairwise_cons.mp hsorted).1 c2 hc2
      · rw [h0] at ht
        exact hstart t ht c2 (List.mem_cons_of_mem c hc2)

/-- C9: the seat-hesitation accumulator never decreases along any sequence of
hover calls with a consistent (nondecreasing, positive) clock; a duplicate
`startSeatHover` while already hovering is a no-op; an `endSeatHover` while
not hovering is a no-op; a matched start/end pair adds exactly the elapsed
time of that interval and clears the hover; and a second `endSeatHover`
without an intervening start adds nothing (no double-counting). -/
theorem seat_hesitation_accumulation :
    (∀ (trace : List (Bool × ℚ)) (s : BehaviorTracker),
        trace.Pairwise (fun a b => a.2 ≤ b.2) →
        (∀ t, s.seatHoverStartTime = some t → ∀ c ∈ trace, t ≤ c.2) →
        s.seatHesitationTime ≤ (trace.foldl hoverStep s).seatHesitationTime) ∧
    (∀ (s : BehaviorTracker) (now t : ℚ), s.seatHoverStartTime = some t → t ≠ 0 →
        startSeatHover s now = s) ∧
    (∀ (s : BehaviorTracker) (now : ℚ), s.seatHoverStartTime = none →
        endSeatHover s now = s) ∧
    (∀ (s : BehaviorTracker) (t1 t2 : ℚ), s.seatHoverStartTime = none → t1 ≠ 0 →
        (endSeatHover (startSeatHover s t1) t2).seatHesitationTime =
          s.seatHesitationTime + (t2 - t1) ∧
        (endSeatHover (startSeatHover s t1) t2).seatHoverStartTime = none) ∧
    (∀ (s : BehaviorTracker) (t2 t3 t : ℚ), s.seatHoverStartTime = some t → t ≠ 0 →
        endSeatHover (endSeatHover s t2) t3 = endSeatHover s t2) := by
  refine ⟨fun trace s h1 h2 => hover_trace_mono trace s h1 h2, ?_, ?_, ?_, ?_⟩
  · intro s now t ht hne
    simp [startSeatHover, jsTruthyOpt, ht, hne]
  · intro s now h
    simp [endSeatHover, h]
  · intro s t1 t2 h ht1
    simp [startSeatHover, endSeatHover, jsTruthyOpt, h, ht1]
  · intro s t2 t3 t ht hne
    simp [endSeatHover, ht, hne]

/-- C9 witness: the five conjuncts at concrete states and clock values. -/
theorem seat_hesitation_accumulation_witness :
    ((mkTracker 5).seatHesitationTime ≤
      (([(true, 10), (false, 25)] : List (Bool × ℚ)).foldl hoverStep
          (mkTracker 5)).seatHesitationTime) ∧
    startSeatHover hoverActiveTracker 40 = hoverActiveTracker ∧
    endSeatHover (mkTracker 5) 40 = mkTracker 5 ∧
    ((endSeatHover (startSeatHover (mkTracker 5) 10) 25).seatHesitationTime =
        (mkTracker 5).seatHesitationTime + (25 - 10) ∧
     (endSeatHover (startSeatHover (mkTracker 5) 10) 25).seatHoverStartTime = none) ∧
    endSeatHover (endSeatHover hoverActiveTracker 50) 60 =
      endSeatHover hoverActiveTracker 50 :=
  ⟨seat_hesitation_accumulation.1 [(true, 10), (false, 25)] (mkTracker 5)
      (by norm_num [List.pairwise_cons]) (by intro t ht; simp [mkTracker] at ht),
   seat_hesitation_accumulation.2.1 hoverActiveTracker 40 30 rfl (by norm_num),
   seat_hesitation_accumulation.2.2.1 (mkTracker 5) 40 rfl,
   seat_hesitation_accumulation.2.2.2.1 (mkTracker 5) 10 25 rfl (by norm_num),
   seat_hesitation_accumulation.2.2.2.2 hoverActiveTracker 50 60 30 rfl (by norm_num)⟩
